import Mathlib

/-!
Verification development for the `connections` repository
(`src/XHRConnection.js`): a shallow embedding of the XHR-backed
connection object — its constructor validation, lifecycle state machine
(`open`, `close`, the five wired transport signal handlers), deferred
event emission, and the `response`/`status` accessors — together with
theorems settling the specification claims about it.

`XHRConnection.js` extends `AbstractConnection` and uses
`ConnectionEvent`; those two modules are not part of the source tree, so
the behavior they contribute (initial state, the centrally enforced
state-transition guard, set-once timestamps, listener registry, event
kinds) is modelled from the specification and marked as such on each
definition.
-/

/-! ## A small model of JavaScript values -/

/-- A JavaScript value, as far as the connection code inspects one:
the primitives distinguished by `typeof`, truthiness and `===`, plus
arrays, plain objects (insertion-ordered field lists) and opaque
function values (identified by an id). Numbers are modelled as integers;
no claim depends on fractional values. -/
inductive JSValue where
  | undefined
  | null
  | bool (b : Bool)
  | num (n : Int)
  | str (s : String)
  | arr (elems : List JSValue)
  | obj (fields : List (String × JSValue))
  | fn (id : Nat)

/-- JavaScript `typeof`.  Note `typeof null` is `"object"` — the quirk
the constructor's headers check inherits. -/
def typeofJS : JSValue → String
  | .undefined => "undefined"
  | .null => "object"
  | .bool _ => "boolean"
  | .num _ => "number"
  | .str _ => "string"
  | .arr _ => "object"
  | .obj _ => "object"
  | .fn _ => "function"

/-- JavaScript truthiness of the modelled values. -/
def truthy : JSValue → Bool
  | .undefined => false
  | .null => false
  | .bool b => b
  | .num n => n != 0
  | .str s => s != ""
  | .arr _ => true
  | .obj _ => true
  | .fn _ => true

/-- Property read `o[k]` on the modelled values: a missing field, or a
read on a non-object, yields `undefined`. -/
def getField (o : JSValue) (k : String) : JSValue :=
  match o with
  | .obj fields =>
    match fields.find? (fun kv => kv.1 == k) with
    | some kv => kv.2
    | none => .undefined
  | _ => .undefined

/-- Destructuring default: JavaScript applies the default exactly when
the read value is `undefined` (not when it is `null`). -/
def withDefault (v d : JSValue) : JSValue :=
  match v with
  | .undefined => d
  | _ => v

/-- The test `v !== undefined && v !== null` guarding every header
application in `open()`. -/
def jsDefinedNotNull : JSValue → Bool
  | .undefined => false
  | .null => false
  | _ => true

/-- `Array.prototype.includes` on a list of string constants, with the
`===` semantics of the modelled values: only a string can match. -/
def jsIncludesStr (l : List String) (v : JSValue) : Bool :=
  match v with
  | .str s => l.contains s
  | _ => false

/-- `Number.isSafeInteger`: true exactly on numbers of magnitude at most
`2^53 - 1` (all modelled numbers are integers). -/
def isSafeIntegerJS : JSValue → Bool
  | .num n => n.natAbs ≤ 9007199254740991
  | _ => false

/-- JavaScript `v < 0` for a value already known to be a number. -/
def jsNegative : JSValue → Bool
  | .num n => n < 0
  | _ => false

/-- `Object.keys(v)` followed by indexing, as the `open()` header loops
use it: on a plain object the insertion-ordered field list; a `TypeError`
on `null`/`undefined`; index keys on arrays and strings; no enumerable
keys on the remaining primitives. -/
def objKeysEntries : JSValue → Except String (List (String × JSValue))
  | .obj fields => .ok fields
  | .null => .error "TypeError: Cannot convert undefined or null to object"
  | .undefined => .error "TypeError: Cannot convert undefined or null to object"
  | .arr elems => .ok (elems.enum.map (fun iv => (toString iv.1, iv.2)))
  | .str s => .ok ((s.toList.enum.map (fun ic => (toString ic.1, JSValue.str (String.mk [ic.2])))))
  | .bool _ => .ok []
  | .num _ => .ok []
  | .fn _ => .ok []

/-- String coercion, as `JSON.parse` applies to its argument.  Only the
string case is exercised by the claims (the getter's fallback branch
always sees the transport's raw text). -/
def jsToString : JSValue → String
  | .str s => s
  | .num n => toString n
  | .bool b => if b then "true" else "false"
  | .null => "null"
  | .undefined => "undefined"
  | .arr _ => ""
  | .obj _ => "[object Object]"
  | .fn _ => "function"

/-! ## `JSON.parse`

A fuel-indexed recursive-descent parser for the JSON values the model
can represent (numbers are integer-valued).  `JSON.parse` of the empty
string, or of malformed text, throws — here, returns `.error`. -/

/-- Skip JSON whitespace. -/
def skipWs : List Char → List Char
  | c :: cs =>
    if c = ' ' ∨ c = '\t' ∨ c = '\n' ∨ c = '\r' then skipWs cs else c :: cs
  | [] => []

/-- Parse the remainder of a JSON string literal (after the opening
quote), supporting the escapes the witnesses need. -/
def parseStrTail (fuel : Nat) (acc : List Char) (cs : List Char) :
    Except String (String × List Char) :=
  match fuel, cs with
  | 0, _ => .error "Unexpected end of JSON input"
  | _, [] => .error "Unexpected end of JSON input"
  | fuel + 1, c :: rest =>
    if c = '"' then .ok (String.mk acc.reverse, rest)
    else if c = '\\' then
      match rest with
      | [] => .error "Unexpected end of JSON input"
      | d :: ds =>
        let e : Char := if d = 'n' then '\n' else if d = 't' then '\t' else d
        parseStrTail fuel (e :: acc) ds
    else parseStrTail fuel (c :: acc) rest

/-- Parse a run of digits into a natural number; fails on an empty run. -/
def parseDigits (cs : List Char) : Except String (Nat × List Char) :=
  let ds := cs.takeWhile Char.isDigit
  let rest := cs.dropWhile Char.isDigit
  if ds.isEmpty then .error "Unexpected token in JSON"
  else .ok (ds.foldl (fun a c => a * 10 + (c.toNat - 48)) 0, rest)

mutual

/-- Parse one JSON value. -/
def parseVal : Nat → List Char → Except String (JSValue × List Char)
  | 0, _ => .error "Unexpected end of JSON input"
  | fuel + 1, cs0 =>
    match skipWs cs0 with
    | [] => .error "Unexpected end of JSON input"
    | c :: rest =>
      if c = 'n' then
        match rest with
        | 'u' :: 'l' :: 'l' :: rest2 => .ok (.null, rest2)
        | _ => .error "Unexpected token in JSON"
      else if c = 't' then
        match rest with
        | 'r' :: 'u' :: 'e' :: rest2 => .ok (.bool true, rest2)
        | _ => .error "Unexpected token in JSON"
      else if c = 'f' then
        match rest with
        | 'a' :: 'l' :: 's' :: 'e' :: rest2 => .ok (.bool false, rest2)
        | _ => .error "Unexpected token in JSON"
      else if c = '"' then
        match parseStrTail (rest.length + 1) [] rest with
        | .ok sr => .ok (.str sr.1, sr.2)
        | .error e => .error e
      else if c = '[' then
        match skipWs rest with
        | ']' :: rest2 => .ok (.arr [], rest2)
        | rest2 =>
          match parseArrItems fuel rest2 with
          | .ok lr => .ok (.arr lr.1, lr.2)
          | .error e => .error e
      else if c = '\x7b' then
        match skipWs rest with
        | '\x7d' :: rest2 => .ok (.obj [], rest2)
        | rest2 =>
          match parseObjItems fuel rest2 with
          | .ok lr => .ok (.obj lr.1, lr.2)
          | .error e => .error e
      else if c = '-' then
        match parseDigits rest with
        | .ok nr => .ok (.num (-(nr.1 : Int)), nr.2)
        | .error e => .error e
      else if c.isDigit then
        match parseDigits (c :: rest) with
        | .ok nr => .ok (.num (nr.1 : Int), nr.2)
        | .error e => .error e
      else .error "Unexpected token in JSON"

/-- Parse the comma-separated items of a non-empty JSON array up to the
closing bracket. -/
def parseArrItems : Nat → List Char → Except String (List JSValue × List Char)
  | 0, _ => .error "Unexpected end of JSON input"
  | fuel + 1, cs =>
    match parseVal fuel cs with
    | .error e => .error e
    | .ok vr =>
      match skipWs vr.2 with
      | ',' :: rest =>
        match parseArrItems fuel rest with
        | .ok lr => .ok (vr.1 :: lr.1, lr.2)
        | .error e => .error e
      | ']' :: rest => .ok ([vr.1], rest)
      | _ => .error "Unexpected token in JSON"

/-- Parse the comma-separated members of a non-empty JSON object up to
the closing brace. -/
def parseObjItems : Nat → List Char → Except String (List (String × JSValue) × List Char)
  | 0, _ => .error "Unexpected end of JSON input"
  | fuel + 1, cs =>
    match skipWs cs with
    | '"' :: rest =>
      match parseStrTail (rest.length + 1) [] rest with
      | .error e => .error e
      | .ok kr =>
        match skipWs kr.2 with
        | ':' :: rest2 =>
          match parseVal fuel rest2 with
          | .error e => .error e
          | .ok vr =>
            match skipWs vr.2 with
            | ',' :: rest3 =>
              match parseObjItems fuel rest3 with
              | .ok lr => .ok ((kr.1, vr.1) :: lr.1, lr.2)
              | .error e => .error e
            | '\x7d' :: rest3 => .ok ([(kr.1, vr.1)], rest3)
            | _ => .error "Unexpected token in JSON"
        | _ => .error "Unexpected token in JSON"
    | _ => .error "Unexpected token in JSON"

end

/-- `JSON.parse`, modelled: parse one value and require only whitespace
after it. -/
def jsonParse (s : String) : Except String JSValue :=
  match parseVal (s.length + 1) s.toList with
  | .error e => .error e
  | .ok vr =>
    if (skipWs vr.2).isEmpty then .ok vr.1
    else .error "Unexpected token in JSON"

/-! ## Connection data model

`ConnState` and the event vocabulary come from `AbstractConnection` /
`ConnectionEvent`, which are not under `src/`; they are modelled from
the specification (§3, §4.2). -/

/-- Modelled from the spec: the connection lifecycle states
`INIT`, `OPEN`, `CLOSED` exposed as constants by `AbstractConnection`. -/
inductive ConnState where
  | INIT
  | OPEN
  | CLOSED
deriving DecidableEq

/-- Position of a state along the lifecycle `INIT → OPEN → CLOSED`. -/
def stateRank : ConnState → Nat
  | .INIT => 0
  | .OPEN => 1
  | .CLOSED => 2

/-- Modelled from the spec: the fixed vocabulary of event kinds exposed
by `ConnectionEvent` (§4.2). -/
inductive EventKind where
  | OPEN
  | DATA
  | ERROR
  | COMPLETE
  | ABORT
deriving DecidableEq

/-- Modelled from the spec: the string constants `ConnectionEvent.OPEN`
etc. that listener registrations carry as their `type`. -/
def eventKindStr : EventKind → String
  | .OPEN => "OPEN"
  | .DATA => "DATA"
  | .ERROR => "ERROR"
  | .COMPLETE => "COMPLETE"
  | .ABORT => "ABORT"

/-- Modelled from the spec: `ConnectionEvent.includes(kind)` — the
static membership test for the five recognized kinds (§4.2). -/
def connectionEventIncludes (v : JSValue) : Bool :=
  match v with
  | .str s => ["OPEN", "DATA", "ERROR", "COMPLETE", "ABORT"].contains s
  | _ => false

/-- One observable action performed during a lifecycle operation, in
program order: calls on the underlying `XMLHttpRequest` handle,
effective connection-state mutations, deferred-emission scheduling, and
actual emissions.  The trace lets temporal claims (mutation before
scheduling, header order, response type set before send) be stated as
facts about action order. -/
inductive Act where
  | attachHandlers
  | xhrOpenCall (m u : String)
  | xhrSetTimeout (t : JSValue)
  | stState (s : ConnState)
  | stOpened (t : Nat)
  | stClosed (t : Nat)
  | sched (k : EventKind)
  | setHeader (k : String) (v : JSValue)
  | setRespType (s : String)
  | send (body : JSValue)
  | xhrAbort
  | emitEv (k : EventKind)

/-- The state of the underlying `XMLHttpRequest` handle, as far as the
connection code reads or writes it.  `status` and `response` are written
by the environment when a `load` signal arrives. -/
@[ext]

structure XHR where
  openedWith : Option (String × String) := none
  timeoutMs : JSValue := .num 0
  reqHeaders : List (String × JSValue) := []
  respType : String := ""
  sendCount : Nat := 0
  abortCount : Nat := 0
  status : Nat := 0
  response : JSValue := .str ""

/-- The full state of one `XHRConnection` instance: the fields owned by
`AbstractConnection` (url, state, timestamps, listener registry —
modelled from the spec), the configuration properties defined by the
constructor, the transport handle, the queue of deferred (scheduled but
not yet fired) emissions, the log of emissions already delivered, and
the action trace. -/
@[ext]

structure Conn where
  url : String := ""
  state : ConnState := .INIT
  opened : Option Nat := none
  closed : Option Nat := none
  listenersReg : List (String × Nat) := []
  method : String := "GET"
  body : JSValue := .null
  headers : JSValue := .undefined
  responseType : String := "json"
  timeout : JSValue := .num 0
  attached : Bool := false
  xhr : XHR := {}
  pending : List EventKind := []
  emitted : List EventKind := []
  trace : List Act := []

/-- Modelled from the spec: the central state-transition guard of
`AbstractConnection` (§4.1) — an assignment to `state` is applied only
when it moves the lifecycle strictly forward, and is silently ignored
otherwise. -/
def Conn.setState (c : Conn) (s : ConnState) : Conn :=
  if stateRank c.state < stateRank s then
    { c with
      state := s
      trace := c.trace ++ [Act.stState s] }
  else c

/-- Modelled from the spec: the `opened` timestamp is set exactly once
(§3); a later assignment is silently ignored. -/
def Conn.setOpened (c : Conn) (t : Nat) : Conn :=
  if c.opened = none then
    { c with
      opened := some t
      trace := c.trace ++ [Act.stOpened t] }
  else c

/-- Modelled from the spec: the `closed` timestamp is set exactly once
(§3); a later assignment is silently ignored. -/
def Conn.setClosed (c : Conn) (t : Nat) : Conn :=
  if c.closed = none then
    { c with
      closed := some t
      trace := c.trace ++ [Act.stClosed t] }
  else c

/-- `window.setTimeout(() => this.emit(kind, ...), 0)`: schedule one
deferred emission of `kind` on the zero-delay timer queue. -/
def Conn.schedule (c : Conn) (k : EventKind) : Conn :=
  { c with
    pending := c.pending ++ [k]
    trace := c.trace ++ [Act.sched k] }

/-- Modelled from the spec: `AbstractConnection.addListener` appends the
registration to the kind's list, preserving insertion order (§4.1).
Callbacks are opaque function ids. -/
def Conn.addListener (c : Conn) (kind : String) (cb : Nat) : Conn :=
  { c with listenersReg := c.listenersReg ++ [(kind, cb)] }

/-! ## The wired signal handlers (`open()`, lines 167–233)

Each handler is the translation of the callback registered with
`xhr.addEventListener` in `open()`.  None of them throws, and none
emits synchronously: emission is always scheduled on a zero-delay
timer. -/

/-- The `progress` handler: schedule a `DATA` emission; no state
change. -/
def handleProgress (c : Conn) : Conn :=
  c.schedule .DATA

/-- The `load` handler: close the connection, stamp `closed`, then
schedule `COMPLETE` when `this.status < 400` and `ERROR` otherwise. -/
def handleLoad (now : Nat) (c : Conn) : Conn :=
  let c := c.setState .CLOSED
  let c := c.setClosed now
  if c.xhr.status < 400 then c.schedule .COMPLETE else c.schedule .ERROR

/-- The `abort` handler: close the connection, stamp `closed`, schedule
`ABORT`. -/
def handleAbort (now : Nat) (c : Conn) : Conn :=
  ((c.setState .CLOSED).setClosed now).schedule .ABORT

/-- The `error` handler: close the connection, stamp `closed`, schedule
`ERROR`. -/
def handleError (now : Nat) (c : Conn) : Conn :=
  ((c.setState .CLOSED).setClosed now).schedule .ERROR

/-- The `timeout` handler: close the connection, stamp `closed`,
schedule `ERROR`. -/
def handleTimeout (now : Nat) (c : Conn) : Conn :=
  ((c.setState .CLOSED).setClosed now).schedule .ERROR

/-- A transport-level signal delivered by the environment.  A `load`
carries the status code and decoded response the environment stores on
the handle before dispatching the event. -/
inductive Signal where
  | progress
  | load (status : Nat) (response : JSValue)
  | abort
  | error
  | timeout

/-- Deliver one transport signal: the environment first updates the
handle (for `load`), then the handler wired in `open()` runs — or
nothing does, when `open()` never attached the handlers. -/
def deliverSignal (s : Signal) (now : Nat) (c : Conn) : Conn :=
  match s with
  | .progress => if c.attached then handleProgress c else c
  | .load status response =>
    let c := { c with xhr := { c.xhr with status := status, response := response } }
    if c.attached then handleLoad now c else c
  | .abort => if c.attached then handleAbort now c else c
  | .error => if c.attached then handleError now c else c
  | .timeout => if c.attached then handleTimeout now c else c

/-! ## `open(headers)` (lines 162–264) -/

/-- The result of a call to `open()`: the connection state afterwards,
the exception that escaped (if any — a thrown `TypeError` from
enumerating unusable headers leaves the mutations made so far in
place), and whether the call returned `this` (the full path) rather
than `undefined` (the non-`INIT` early return). -/
structure OpenResult where
  conn : Conn
  thrown : Option String
  retSelf : Bool

/-- The shared header-application loop of `open()`: iterate the entries
in insertion order and call `xhr.setRequestHeader` on every entry whose
value is neither `undefined` nor `null`. -/
def applyHeaderList (l : List (String × JSValue)) (c : Conn) : Conn :=
  l.foldl
    (fun acc kv =>
      if jsDefinedNotNull kv.2 then
        { acc with
          xhr := { acc.xhr with reqHeaders := acc.xhr.reqHeaders ++ [kv] }
          trace := acc.trace ++ [Act.setHeader kv.1 kv.2] }
      else acc)
    c

/-- The tail of `open()` after both header loops: negotiate the response
type on the handle, send the body, return `this`. -/
def openFinish (c : Conn) : OpenResult :=
  let c := { c with
    xhr := { c.xhr with respType := c.responseType }
    trace := c.trace ++ [Act.setRespType c.responseType] }
  let c := { c with
    xhr := { c.xhr with sendCount := c.xhr.sendCount + 1 }
    trace := c.trace ++ [Act.send c.body] }
  ⟨c, none, true⟩

/-- `open(headers)`, translated line by line: early return unless the
state is `INIT`; attach the five signal handlers; `xhr.open(method,
url)`; apply the timeout; transition to `OPEN` and stamp `opened`;
schedule the `OPEN` emission; apply the base configured headers, then —
when the argument has `typeof` `"object"` — the caller-supplied headers
on top; set the response type; send; return `this`.  Enumerating `null`
headers throws a `TypeError` at the corresponding loop, leaving the
mutations already made in place. -/
def openConn (hdrs : JSValue) (now : Nat) (c : Conn) : OpenResult :=
  if c.state ≠ ConnState.INIT then ⟨c, none, false⟩
  else
    let c := { c with
      attached := true
      trace := c.trace ++ [Act.attachHandlers] }
    let c := { c with
      xhr := { c.xhr with openedWith := some (c.method, c.url) }
      trace := c.trace ++ [Act.xhrOpenCall c.method c.url] }
    let c := { c with
      xhr := { c.xhr with timeoutMs := c.timeout }
      trace := c.trace ++ [Act.xhrSetTimeout c.timeout] }
    let c := ((c.setState .OPEN).setOpened now).schedule .OPEN
    match objKeysEntries c.headers with
    | .error e => ⟨c, some e, false⟩
    | .ok base =>
      let c := applyHeaderList base c
      if typeofJS hdrs = "object" then
        match objKeysEntries hdrs with
        | .error e => ⟨c, some e, false⟩
        | .ok extra => openFinish (applyHeaderList extra c)
      else openFinish c

/-! ## `close()` (lines 269–284) -/

/-- `close()`, translated faithfully as the source's two consecutive
`if` statements: from `INIT`, transition directly to `CLOSED`, stamp
`closed` and schedule `ABORT`; then, if the state is (still) `OPEN`,
call `xhr.abort()` — which only requests the abort; the wired `abort`
handler performs the transition when the signal arrives. -/
def closeConn (now : Nat) (c : Conn) : Conn :=
  let c1 :=
    if c.state = ConnState.INIT then
      ((c.setState .CLOSED).setClosed now).schedule .ABORT
    else c
  if c1.state = ConnState.OPEN then
    { c1 with
      xhr := { c1.xhr with abortCount := c1.xhr.abortCount + 1 }
      trace := c1.trace ++ [Act.xhrAbort] }
  else c1

/-! ## The zero-delay timer queue -/

/-- Fire the oldest pending zero-delay timer: emit its event to the
registered listeners.  Touches neither `state` nor the timestamps. -/
def fireTimer (c : Conn) : Conn :=
  match c.pending with
  | [] => c
  | k :: rest =>
    { c with
      pending := rest
      emitted := c.emitted ++ [k]
      trace := c.trace ++ [Act.emitEv k] }

/-- One step of the single-threaded event loop acting on a connection:
a lifecycle call by the caller, a transport signal, or a timer firing. -/
inductive Op where
  | opn (hdrs : JSValue) (now : Nat)
  | cls (now : Nat)
  | sig (s : Signal) (now : Nat)
  | tick

/-- Apply one event-loop step. -/
def applyOp (o : Op) (c : Conn) : Conn :=
  match o with
  | .opn hdrs now => (openConn hdrs now c).conn
  | .cls now => closeConn now c
  | .sig s now => deliverSignal s now c
  | .tick => fireTimer c

/-- Run a sequence of event-loop steps. -/
def run (ops : List Op) (c : Conn) : Conn :=
  ops.foldl (fun a o => applyOp o a) c

/-! ## The constructor (lines 28–135) -/

/-- `ALLOWED_METHODS` (line 4). -/
def ALLOWED_METHODS : List String := ["GET", "POST", "PUT", "DELETE"]

/-- `ALLOWED_RESPONSE_TYPES` (lines 5–11). -/
def ALLOWED_RESPONSE_TYPES : List String :=
  ["arraybuffer", "blob", "document", "json", "text"]

/-- Modelled from the spec: `AbstractConnection`'s constructor — a fresh
connection owns its url, starts in `INIT` with both timestamps unset and
an empty listener registry (§3). -/
def baseConn (url : String) : Conn := { url := url }

/-- The string a validated method/response-type value is known to be. -/
def asStr : JSValue → String
  | .str s => s
  | _ => ""

/-- The `listeners.forEach` validation loop (lines 75–87): each entry
must be a truthy value of `typeof` `"object"`, its `type` a recognized
`ConnectionEvent` kind, its `callback` a function; a valid entry is
registered immediately, so an exception later in the loop keeps the
earlier registrations (on an instance that never escapes). -/
def registerListeners (ls : List JSValue) (c : Conn) : Except String Conn :=
  match ls with
  | [] => .ok c
  | lo :: rest =>
    if ¬ (truthy lo ∧ typeofJS lo = "object") then
      .error ("Invalid listener object type \"" ++ typeofJS lo ++ "\". Has to be an object.")
    else if ¬ connectionEventIncludes (getField lo "type") then
      .error "Unknown ConnectionEvent.type. Has to be one of: OPEN, DATA, ERROR, COMPLETE, ABORT"
    else if typeofJS (getField lo "callback") ≠ "function" then
      .error "Invalid Callback type. Has to be a function."
    else
      let cb := match getField lo "callback" with
        | .fn id => id
        | _ => 0
      registerListeners rest (c.addListener (asStr (getField lo "type")) cb)

/-- The tail of the constructor after all checks passed and the handle
exists: when `options.open` is truthy, call `this.open()` and let its
exception, if any, escape; otherwise hand back the instance. -/
def constructFinish (options : JSValue) (now : Nat) (c : Conn) :
    Except String Conn :=
  if truthy (getField options "open") then
    match (openConn .undefined now c).thrown with
    | some e => .error e
    | none => .ok (openConn .undefined now c).conn
  else .ok c

/-- The `XHRConnection` constructor: run `super(url)`; destructure the
options with their defaults (a default applies exactly on a missing or
`undefined` field); validate method, response type, headers `typeof`,
timeout and the listeners array in source order, throwing the source's
descriptive error at the first violation; register the listeners; define
the immutable configuration properties; create the `XMLHttpRequest`
handle — only after every check has passed — and finally, when
`options.open` is truthy, call `this.open()` (whose exception, if any,
escapes the constructor).  Passing `null` options throws the
destructuring `TypeError`; an `undefined` options argument receives the
default `{}`. -/
def constructChecks (url : String) (options : JSValue) (now : Nat) :
    Except String Conn :=
    let method := withDefault (getField options "method") (.str "GET")
    let body := withDefault (getField options "body") .null
    let headers :=
      withDefault (getField options "headers") (.obj [("Accept", .str "application/json")])
    let responseType := withDefault (getField options "responseType") (.str "json")
    let timeout := withDefault (getField options "timeout") (.num 0)
    let listeners := withDefault (getField options "listeners") (.arr [])
    if ¬ jsIncludesStr ALLOWED_METHODS method then
      .error ("Invalid method \"" ++ jsToString method ++ "\". Valid methods are: \"GET\", \"POST\", \"PUT\", \"DELETE\".")
    else if ¬ jsIncludesStr ALLOWED_RESPONSE_TYPES responseType then
      .error ("Invalid response type \"" ++ jsToString responseType ++ "\". Valid reponse types are \"arraybuffer\", \"blob\", \"document\", \"json\", \"text\".")
    else if typeofJS headers ≠ "object" then
      .error ("Invalid headers. Type must be \"object\", is \"" ++ typeofJS headers ++ "\".")
    else if ¬ (isSafeIntegerJS timeout ∧ ¬ jsNegative timeout = true) then
      .error "Invalid timeout. Must be an integer >= 0 and less than Number.MAX_SAFE_INTEGER."
    else
      match listeners with
      | .arr ls =>
        (match registerListeners ls (baseConn url) with
        | .error e => .error e
        | .ok c0 =>
          constructFinish options now
            { c0 with
              method := asStr method
              body := body
              headers := headers
              responseType := asStr responseType
              timeout := timeout
              xhr := {} })
      | _ => .error "Invalid listeners array type. Has to be an array."

/-- The constructor entry point: JavaScript destructuring applies the
default empty-object options to an `undefined` argument and throws a
`TypeError` on `null`; any other value reaches the checks. -/
def construct (url : String) (options : JSValue) (now : Nat) : Except String Conn :=
  match options with
  | .undefined => constructChecks url (.obj []) now
  | .null => .error "TypeError: Cannot destructure property of null"
  | o => constructChecks url o now

/-! ## Accessors (lines 137–155) -/

/-- The `response` getter: when the configured response type is
`"json"`, the handle's response is truthy, and the handle's negotiated
response type silently fell back to raw text (the empty string), return
`JSON.parse` of the raw text (whose exception, on malformed text, would
escape); otherwise return the handle's decoded response as-is. -/
def responseGetter (c : Conn) : Except String JSValue :=
  if c.responseType = "json" ∧ truthy c.xhr.response = true ∧ c.xhr.respType = "" then
    jsonParse (jsToString c.xhr.response)
  else .ok c.xhr.response

/-- The `status` getter. -/
def statusGetter (c : Conn) : Nat := c.xhr.status

/-- True exactly when construction threw. -/
def isErr (r : Except String Conn) : Bool :=
  match r with
  | .error _ => true
  | .ok _ => false

/-! ## Concrete sample connections and claim-level predicates -/

/-- A connection as it looks right after a successful `open()`: in
flight, handlers wired, close timestamp still unset.  Used to
instantiate hypothesis-bearing theorems. -/
def sampleOpenConn : Conn :=
  { state := ConnState.OPEN, opened := some 1, attached := true,
    headers := .obj [("Accept", .str "application/json")] }

/-- A connection that has already closed at time 2. -/
def sampleClosedConn : Conn :=
  { state := ConnState.CLOSED, opened := some 1, closed := some 2, attached := true }

/-- A connection as the constructor leaves it (state `INIT`, default
headers), for instantiating hypothesis-bearing theorems. -/
def sampleInitConn : Conn :=
  { url := "u", headers := .obj [("Accept", .str "application/json")] }

/-- A well-shaped listener registration per the claim: an object whose
`type` is a recognized event kind and whose `callback` is invocable. -/
def goodListener (lo : JSValue) : Bool :=
  truthy lo && (typeofJS lo == "object") &&
    connectionEventIncludes (getField lo "type") &&
    (typeofJS (getField lo "callback") == "function")

/-- The invalid-configuration condition exactly as the claim enumerates
it (after applying the constructor's destructuring defaults): method
outside the allowed four, response type outside the allowed five,
headers whose `typeof` is not `"object"`, timeout not a non-negative
safe integer, or listeners not an array of well-shaped registrations. -/
def claimInvalidConfig (options : JSValue) : Bool :=
  let method := withDefault (getField options "method") (.str "GET")
  let headers :=
    withDefault (getField options "headers") (.obj [("Accept", .str "application/json")])
  let responseType := withDefault (getField options "responseType") (.str "json")
  let timeout := withDefault (getField options "timeout") (.num 0)
  let listeners := withDefault (getField options "listeners") (.arr [])
  (!(jsIncludesStr ALLOWED_METHODS method)) ||
  (!(jsIncludesStr ALLOWED_RESPONSE_TYPES responseType)) ||
  (!(typeofJS headers == "object")) ||
  (!(isSafeIntegerJS timeout && !(jsNegative timeout))) ||
  (!(match listeners with
     | JSValue.arr ls => ls.all goodListener
     | _ => false))

/-- JavaScript `v === null`. -/
def isNullJS : JSValue → Bool
  | .null => true
  | _ => false

/-- A `"json"`-configured connection whose transport silently fell back
to raw text and whose raw response is the empty string (e.g. nothing
was received). -/
def sampleFallbackEmpty : Conn :=
  { responseType := "json", xhr := { respType := "", response := .str "" } }

/-- A `"json"`-configured connection in the raw-text fallback holding
the text of a small JSON object. -/
def sampleFallbackJson : Conn :=
  { responseType := "json",
    xhr := { respType := "", response := .str "\x7b\"a\":1\x7d" } }

/-! ## Helper lemmas on the guarded setters and the operations -/

example : jsonParse "null" = .ok .null := rfl

example : jsonParse " 17 " = .ok (.num 17) := rfl

example : jsonParse "" = .error "Unexpected end of JSON input" := rfl

example : jsonParse "\x7b\"a\":1\x7d" = .ok (.obj [("a", .num 1)]) := rfl

example : jsonParse "[1,\"x\",null]" = .ok (.arr [.num 1, .str "x", .null]) := rfl

theorem setState_fields (c : Conn) (s : ConnState) :
    (c.setState s).opened = c.opened ∧ (c.setState s).closed = c.closed ∧
    (c.setState s).pending = c.pending ∧ (c.setState s).emitted = c.emitted ∧
    (c.setState s).xhr = c.xhr ∧ (c.setState s).attached = c.attached ∧
    (c.setState s).headers = c.headers ∧ (c.setState s).method = c.method ∧
    (c.setState s).url = c.url ∧ (c.setState s).body = c.body ∧
    (c.setState s).responseType = c.responseType ∧
    (c.setState s).timeout = c.timeout := by
  unfold Conn.setState
  split <;> simp

theorem setClosed_fields (c : Conn) (t : Nat) :
    (c.setClosed t).state = c.state ∧ (c.setClosed t).opened = c.opened ∧
    (c.setClosed t).pending = c.pending ∧ (c.setClosed t).emitted = c.emitted ∧
    (c.setClosed t).xhr = c.xhr ∧ (c.setClosed t).attached = c.attached ∧
    (c.setClosed t).headers = c.headers ∧ (c.setClosed t).method = c.method ∧
    (c.setClosed t).url = c.url ∧ (c.setClosed t).body = c.body ∧
    (c.setClosed t).responseType = c.responseType ∧
    (c.setClosed t).timeout = c.timeout := by
  unfold Conn.setClosed
  split <;> simp

theorem setClosed_closed (c : Conn) (t : Nat) :
    (c.setClosed t).closed = if c.closed = none then some t else c.closed := by
  unfold Conn.setClosed
  split <;> simp_all

theorem setOpened_opened (c : Conn) (t : Nat) :
    (c.setOpened t).opened = if c.opened = none then some t else c.opened := by
  unfold Conn.setOpened
  split <;> simp_all

theorem setState_state (c : Conn) (s : ConnState) :
    (c.setState s).state = if stateRank c.state < stateRank s then s else c.state := by
  unfold Conn.setState
  split <;> simp_all

theorem setOpened_fields (c : Conn) (t : Nat) :
    (c.setOpened t).state = c.state ∧ (c.setOpened t).closed = c.closed ∧
    (c.setOpened t).pending = c.pending ∧ (c.setOpened t).emitted = c.emitted ∧
    (c.setOpened t).xhr = c.xhr ∧ (c.setOpened t).attached = c.attached ∧
    (c.setOpened t).headers = c.headers ∧ (c.setOpened t).method = c.method ∧
    (c.setOpened t).url = c.url ∧ (c.setOpened t).body = c.body ∧
    (c.setOpened t).responseType = c.responseType ∧
    (c.setOpened t).timeout = c.timeout := by
  unfold Conn.setOpened
  split <;> simp

theorem schedule_fields (c : Conn) (k : EventKind) :
    (c.schedule k).state = c.state ∧ (c.schedule k).opened = c.opened ∧
    (c.schedule k).closed = c.closed ∧
    (c.schedule k).pending = c.pending ++ [k] ∧
    (c.schedule k).emitted = c.emitted ∧ (c.schedule k).xhr = c.xhr ∧
    (c.schedule k).attached = c.attached ∧
    (c.schedule k).headers = c.headers ∧ (c.schedule k).method = c.method ∧
    (c.schedule k).url = c.url ∧ (c.schedule k).body = c.body ∧
    (c.schedule k).responseType = c.responseType ∧
    (c.schedule k).timeout = c.timeout := by
  unfold Conn.schedule
  simp

/-- Full characterization of the header-application loop: it appends the
entries whose value survives the `undefined`/`null` test, in order, to
the request headers and logs the matching actions; nothing else
changes. -/
theorem applyHeaderList_eq (l : List (String × JSValue)) (c : Conn) :
    applyHeaderList l c =
      { c with
        xhr := { c.xhr with
          reqHeaders :=
            c.xhr.reqHeaders ++ (l.filter (fun kv => jsDefinedNotNull kv.2)) }
        trace :=
          c.trace ++
            (l.filter (fun kv => jsDefinedNotNull kv.2)).map
              (fun kv => Act.setHeader kv.1 kv.2) } := by
  induction l generalizing c with
  | nil => simp [applyHeaderList]
  | cons kv rest ih =>
    unfold applyHeaderList at ih ⊢
    by_cases h : jsDefinedNotNull kv.2 <;> simp [h, List.filter_cons, ih]

/-- `open()` is a no-op (returning `undefined`) unless the state is
`INIT`. -/
theorem openConn_noop (hdrs : JSValue) (now : Nat) (c : Conn)
    (h : ¬ c.state = ConnState.INIT) :
    openConn hdrs now c = ⟨c, none, false⟩ := by
  unfold openConn
  simp [h]

/-- Field-level characterization of `open()` that holds for every
starting state: the state moves to `OPEN` exactly from `INIT`, nothing
is emitted synchronously, `closed` is untouched, one `OPEN` emission is
scheduled exactly from `INIT`, `opened` is stamped exactly when still
unset, and the parts of the handle the signal handlers read are
untouched. -/
theorem openConn_fields (hdrs : JSValue) (now : Nat) (c : Conn) :
    (openConn hdrs now c).conn.state =
      (if c.state = ConnState.INIT then ConnState.OPEN else c.state) ∧
    (openConn hdrs now c).conn.emitted = c.emitted ∧
    (openConn hdrs now c).conn.closed = c.closed ∧
    (openConn hdrs now c).conn.pending =
      (if c.state = ConnState.INIT then c.pending ++ [EventKind.OPEN] else c.pending) ∧
    (openConn hdrs now c).conn.opened =
      (if c.state = ConnState.INIT ∧ c.opened = none then some now else c.opened) ∧
    (openConn hdrs now c).conn.xhr.status = c.xhr.status ∧
    (openConn hdrs now c).conn.xhr.abortCount = c.xhr.abortCount := by
  by_cases hI : c.state = ConnState.INIT
  · cases hk : objKeysEntries c.headers with
    | error e =>
      simp [openConn, hI, hk, setState_state, setState_fields, setOpened_fields,
        setOpened_opened, schedule_fields, stateRank]
    | ok base =>
      by_cases ht : typeofJS hdrs = "object"
      · cases hk2 : objKeysEntries hdrs with
        | error e =>
          simp [openConn, hI, hk, ht, hk2, setState_state, setState_fields,
            setOpened_fields, setOpened_opened, schedule_fields, stateRank,
            applyHeaderList_eq]
        | ok extra =>
          simp [openConn, hI, hk, ht, hk2, setState_state, setState_fields,
            setOpened_fields, setOpened_opened, schedule_fields, stateRank,
            applyHeaderList_eq, openFinish]
      · simp [openConn, hI, hk, ht, setState_state, setState_fields,
          setOpened_fields, setOpened_opened, schedule_fields, stateRank,
          applyHeaderList_eq, openFinish]
  · simp [openConn, hI]

/-- `close()` from `INIT` with `closed` still unset: direct transition
to `CLOSED`, stamp, one scheduled `ABORT`; the transport is not
touched. -/
theorem closeConn_init (now : Nat) (c : Conn) (hI : c.state = ConnState.INIT)
    (hC : c.closed = none) :
    closeConn now c =
      { c with
        state := ConnState.CLOSED
        closed := some now
        pending := c.pending ++ [EventKind.ABORT]
        trace := c.trace ++
          [Act.stState ConnState.CLOSED, Act.stClosed now, Act.sched EventKind.ABORT] } := by
  unfold closeConn Conn.setState Conn.setClosed Conn.schedule
  simp [hI, hC, stateRank]

/-- `close()` from `OPEN`: only `xhr.abort()` is requested. -/
theorem closeConn_open (now : Nat) (c : Conn) (hO : c.state = ConnState.OPEN) :
    closeConn now c =
      { c with
        xhr := { c.xhr with abortCount := c.xhr.abortCount + 1 }
        trace := c.trace ++ [Act.xhrAbort] } := by
  unfold closeConn
  simp [hO]

/-- `close()` from `CLOSED`: a complete no-op. -/
theorem closeConn_closed (now : Nat) (c : Conn) (hC : c.state = ConnState.CLOSED) :
    closeConn now c = c := by
  unfold closeConn
  simp [hC]

/-- Field-level characterization of `close()` for every starting state. -/
theorem closeConn_fields (now : Nat) (c : Conn) :
    (closeConn now c).state =
      (if c.state = ConnState.INIT then ConnState.CLOSED else c.state) ∧
    (closeConn now c).opened = c.opened ∧
    (closeConn now c).closed =
      (if c.state = ConnState.INIT ∧ c.closed = none then some now else c.closed) ∧
    (closeConn now c).emitted = c.emitted ∧
    (closeConn now c).pending =
      (if c.state = ConnState.INIT then c.pending ++ [EventKind.ABORT] else c.pending) ∧
    (closeConn now c).xhr.sendCount = c.xhr.sendCount := by
  unfold closeConn
  by_cases hI : c.state = ConnState.INIT
  · simp [hI, Conn.setState, Conn.setClosed, Conn.schedule, stateRank]
    split <;> simp_all
  · simp [hI]
    split <;> simp_all

/-- Field-level characterization of delivering a terminal signal
(`load`, `abort`, `error`, `timeout`) via its wired handler: the handler
body is `state = CLOSED; closed = now; setTimeout(emit ev)`. -/
theorem handlerClose_fields (now : Nat) (c : Conn) (ev : EventKind) :
    ((((c.setState ConnState.CLOSED).setClosed now).schedule ev).state =
      ConnState.CLOSED) ∧
    ((((c.setState ConnState.CLOSED).setClosed now).schedule ev).opened = c.opened) ∧
    ((((c.setState ConnState.CLOSED).setClosed now).schedule ev).closed =
      (if c.closed = none then some now else c.closed)) ∧
    ((((c.setState ConnState.CLOSED).setClosed now).schedule ev).pending =
      c.pending ++ [ev]) ∧
    ((((c.setState ConnState.CLOSED).setClosed now).schedule ev).emitted = c.emitted) ∧
    ((((c.setState ConnState.CLOSED).setClosed now).schedule ev).xhr = c.xhr) ∧
    ((((c.setState ConnState.CLOSED).setClosed now).schedule ev).attached = c.attached) := by
  cases hcs : c.state <;> by_cases hcl : c.closed = none <;>
    simp [Conn.setState, Conn.setClosed, Conn.schedule, stateRank, hcs, hcl]

/-- `fireTimer` moves the oldest pending event to the emitted log and
touches neither the lifecycle state, the timestamps, nor the handle. -/
theorem fireTimer_fields (c : Conn) :
    (fireTimer c).state = c.state ∧ (fireTimer c).opened = c.opened ∧
    (fireTimer c).closed = c.closed ∧ (fireTimer c).xhr = c.xhr ∧
    (fireTimer c).emitted = c.emitted ++ c.pending.take 1 ∧
    (fireTimer c).pending = c.pending.drop 1 := by
  cases h : c.pending <;> simp [fireTimer, h]

/-- Coarse characterization of signal delivery, for the invariants: the
state either stays or becomes `CLOSED`; `opened` and the emitted log are
never touched; `closed`, once set, keeps its value. -/
theorem deliverSignal_inv (s : Signal) (now : Nat) (c : Conn) :
    ((deliverSignal s now c).state = c.state ∨
      (deliverSignal s now c).state = ConnState.CLOSED) ∧
    (deliverSignal s now c).opened = c.opened ∧
    (deliverSignal s now c).emitted = c.emitted ∧
    ((deliverSignal s now c).closed =
      (if c.closed = none then (deliverSignal s now c).closed else c.closed)) := by
  cases s <;> by_cases hA : c.attached <;>
    simp [deliverSignal, handleProgress, handleLoad, handleAbort, handleError,
      handleTimeout, hA] <;>
    by_cases hcl : c.closed = none <;>
    cases hcs : c.state <;>
    simp [Conn.setState, Conn.setClosed, Conn.schedule, stateRank, hcl, hcs] <;>
    split <;> simp

/-- Every single event-loop step moves the state along an allowed edge:
it stays put, or follows `INIT → OPEN`, `INIT → CLOSED`, or
`OPEN → CLOSED`. -/
theorem applyOp_state_edge (o : Op) (c : Conn) :
    (applyOp o c).state = c.state ∨
    (c.state = ConnState.INIT ∧ (applyOp o c).state = ConnState.OPEN) ∨
    (c.state = ConnState.INIT ∧ (applyOp o c).state = ConnState.CLOSED) ∨
    (c.state = ConnState.OPEN ∧ (applyOp o c).state = ConnState.CLOSED) := by
  cases o with
  | opn hdrs now =>
    have h := (openConn_fields hdrs now c).1
    by_cases hI : c.state = ConnState.INIT
    · right; left
      refine ⟨hI, ?_⟩
      rw [show applyOp (Op.opn hdrs now) c = (openConn hdrs now c).conn from rfl, h]
      simp [hI]
    · left
      rw [show applyOp (Op.opn hdrs now) c = (openConn hdrs now c).conn from rfl, h]
      simp [hI]
  | cls now =>
    have h := (closeConn_fields now c).1
    by_cases hI : c.state = ConnState.INIT
    · right; right; left
      refine ⟨hI, ?_⟩
      rw [show applyOp (Op.cls now) c = closeConn now c from rfl, h]
      simp [hI]
    · left
      rw [show applyOp (Op.cls now) c = closeConn now c from rfl, h]
      simp [hI]
  | sig s now =>
    rcases (deliverSignal_inv s now c).1 with h | h
    · left; exact h
    · cases hcs : c.state with
      | INIT => right; right; left; exact ⟨rfl, h⟩
      | OPEN => right; right; right; exact ⟨rfl, h⟩
      | CLOSED => left; exact h
  | tick => left; exact (fireTimer_fields c).1

/-- The rank never decreases across one step. -/
theorem applyOp_rank_le (o : Op) (c : Conn) :
    stateRank c.state ≤ stateRank (applyOp o c).state := by
  rcases applyOp_state_edge o c with h | ⟨h1, h2⟩ | ⟨h1, h2⟩ | ⟨h1, h2⟩ <;>
    simp_all [stateRank]

/-- C2: For every connection and every sequence of `open()`/`close()`
calls, transport signals and timer firings, the state only moves forward
along `INIT → OPEN → CLOSED` (or `INIT → CLOSED` directly): each step
follows an allowed forward edge — in particular a `CLOSED` connection
stays `CLOSED` — and over any run the lifecycle rank never decreases. -/
theorem claim_C2_state_monotonic :
    (∀ (o : Op) (c : Conn),
      (applyOp o c).state = c.state ∨
      (c.state = ConnState.INIT ∧ (applyOp o c).state = ConnState.OPEN) ∨
      (c.state = ConnState.INIT ∧ (applyOp o c).state = ConnState.CLOSED) ∨
      (c.state = ConnState.OPEN ∧ (applyOp o c).state = ConnState.CLOSED)) ∧
    (∀ (ops : List Op) (c : Conn),
      stateRank c.state ≤ stateRank (run ops c).state) := by
  refine ⟨applyOp_state_edge, ?_⟩
  intro ops
  induction ops with
  | nil => intro c; simp [run]
  | cons o rest ih =>
    intro c
    have h1 := applyOp_rank_le o c
    have h2 := ih (applyOp o c)
    calc stateRank c.state ≤ stateRank (applyOp o c).state := h1
      _ ≤ stateRank (run rest (applyOp o c)).state := h2
      _ = stateRank (run (o :: rest) c).state := by simp [run]

/-- C9: the `opened` and `closed` timestamps, once set, are never
changed by any later event-loop step; and in the race where an `error`
signal is followed by a `timeout` signal on the same open connection,
the first signal stamps `closed` and transitions the state, while the
second neither re-stamps the close timestamp nor changes state again —
yet still enqueues its own deferred `ERROR` event. -/
theorem claim_C9_timestamps_set_once :
    (∀ (o : Op) (c : Conn) (t : Nat),
      c.closed = some t → (applyOp o c).closed = some t) ∧
    (∀ (o : Op) (c : Conn) (t : Nat),
      c.opened = some t → (applyOp o c).opened = some t) ∧
    (∀ (c : Conn) (t1 t2 : Nat),
      c.state = ConnState.OPEN → c.attached = true → c.closed = none →
      (deliverSignal .timeout t2 (deliverSignal .error t1 c)).closed = some t1 ∧
      (deliverSignal .timeout t2 (deliverSignal .error t1 c)).state = ConnState.CLOSED ∧
      (deliverSignal .timeout t2 (deliverSignal .error t1 c)).pending =
        c.pending ++ [EventKind.ERROR, EventKind.ERROR] ∧
      (deliverSignal .timeout t2 (deliverSignal .error t1 c)).emitted = c.emitted) := by
  refine ⟨?_, ?_, ?_⟩
  · intro o c t h
    cases o with
    | opn hdrs now =>
      have hc := (openConn_fields hdrs now c).2.2.1
      show (openConn hdrs now c).conn.closed = some t
      rw [hc, h]
    | cls now =>
      have hc := (closeConn_fields now c).2.2.1
      show (closeConn now c).closed = some t
      rw [hc, h]
      simp [h]
    | sig s now =>
      have hc := (deliverSignal_inv s now c).2.2.2
      show (deliverSignal s now c).closed = some t
      rw [hc]
      simp [h]
    | tick =>
      have hc := (fireTimer_fields c).2.2.1
      show (fireTimer c).closed = some t
      rw [hc, h]
  · intro o c t h
    cases o with
    | opn hdrs now =>
      have hc := (openConn_fields hdrs now c).2.2.2.2.1
      show (openConn hdrs now c).conn.opened = some t
      rw [hc, h]
      simp
    | cls now =>
      have hc := (closeConn_fields now c).2.1
      show (closeConn now c).opened = some t
      rw [hc, h]
    | sig s now =>
      have hc := (deliverSignal_inv s now c).2.1
      show (deliverSignal s now c).opened = some t
      rw [hc, h]
    | tick =>
      have hc := (fireTimer_fields c).2.1
      show (fireTimer c).opened = some t
      rw [hc, h]
  · intro c t1 t2 hS hA hC
    have e1 : deliverSignal .error t1 c = handleError t1 c := by
      simp [deliverSignal, hA]
    have h1 := handlerClose_fields t1 c EventKind.ERROR
    have hA1 : (handleError t1 c).attached = true := by
      rw [show handleError t1 c =
        ((c.setState ConnState.CLOSED).setClosed t1).schedule EventKind.ERROR from rfl]
      rw [h1.2.2.2.2.2.2, hA]
    have e2 : deliverSignal .timeout t2 (handleError t1 c) =
        handleTimeout t2 (handleError t1 c) := by
      simp [deliverSignal, hA1]
    have h2 := handlerClose_fields t2 (handleError t1 c) EventKind.ERROR
    rw [e1, e2]
    have hcl1 : (handleError t1 c).closed = some t1 := by
      rw [show handleError t1 c =
        ((c.setState ConnState.CLOSED).setClosed t1).schedule EventKind.ERROR from rfl]
      rw [h1.2.2.1]
      simp [hC]
    refine ⟨?_, ?_, ?_, ?_⟩
    · rw [show handleTimeout t2 (handleError t1 c) =
        (((handleError t1 c).setState ConnState.CLOSED).setClosed t2).schedule
          EventKind.ERROR from rfl]
      rw [h2.2.2.1, hcl1]
      simp
    · exact h2.1
    · rw [show handleTimeout t2 (handleError t1 c) =
        (((handleError t1 c).setState ConnState.CLOSED).setClosed t2).schedule
          EventKind.ERROR from rfl]
      rw [h2.2.2.2.1]
      rw [show handleError t1 c =
        ((c.setState ConnState.CLOSED).setClosed t1).schedule EventKind.ERROR from rfl]
      rw [h1.2.2.2.1]
      simp
    · rw [show handleTimeout t2 (handleError t1 c) =
        (((handleError t1 c).setState ConnState.CLOSED).setClosed t2).schedule
          EventKind.ERROR from rfl]
      rw [h2.2.2.2.2.1]
      rw [show handleError t1 c =
        ((c.setState ConnState.CLOSED).setClosed t1).schedule EventKind.ERROR from rfl]
      rw [h1.2.2.2.2.1]

/-- Witness for C9 at concrete inputs: an `error` at time 8 followed by
a `timeout` at time 9 on an open connection keeps `closed = 8` while
enqueuing both deferred `ERROR` events, and a step on an
already-closed connection keeps its timestamp. -/
theorem claim_C9_timestamps_set_once_witness :
    (deliverSignal .timeout 9 (deliverSignal .error 8 sampleOpenConn)).closed = some 8 ∧
    (deliverSignal .timeout 9 (deliverSignal .error 8 sampleOpenConn)).pending =
      [EventKind.ERROR, EventKind.ERROR] ∧
    (applyOp .tick sampleClosedConn).closed = some 2 := by
  have h := claim_C9_timestamps_set_once
  refine ⟨?_, ?_, ?_⟩
  · exact (h.2.2 sampleOpenConn 8 9 rfl rfl rfl).1
  · have hp := (h.2.2 sampleOpenConn 8 9 rfl rfl rfl).2.2.1
    simpa [sampleOpenConn] using hp
  · exact h.1 .tick sampleClosedConn 2 rfl

/-- C4: `close()` per state.  From `INIT` it transitions directly to
`CLOSED`, stamps the close timestamp, schedules exactly one `ABORT`
emission and never touches the transport (no send, no abort call).
From `OPEN` it only calls `xhr.abort()`: state, timestamps, and the
event queues are untouched.  From `CLOSED` it is a complete no-op. -/
theorem claim_C4_close_per_state (now : Nat) (c : Conn) :
    (c.state = ConnState.INIT → c.closed = none →
      (closeConn now c).state = ConnState.CLOSED ∧
      (closeConn now c).closed = some now ∧
      (closeConn now c).opened = c.opened ∧
      (closeConn now c).pending = c.pending ++ [EventKind.ABORT] ∧
      (closeConn now c).emitted = c.emitted ∧
      (closeConn now c).xhr.sendCount = c.xhr.sendCount ∧
      (closeConn now c).xhr.abortCount = c.xhr.abortCount) ∧
    (c.state = ConnState.OPEN →
      closeConn now c =
        { c with
          xhr := { c.xhr with abortCount := c.xhr.abortCount + 1 }
          trace := c.trace ++ [Act.xhrAbort] }) ∧
    (c.state = ConnState.CLOSED → closeConn now c = c) := by
  refine ⟨?_, ?_, ?_⟩
  · intro hI hC
    rw [closeConn_init now c hI hC]
    simp
  · intro hO
    exact closeConn_open now c hO
  · intro hC
    exact closeConn_closed now c hC

/-- Witness for C4 at concrete inputs, one per state. -/
theorem claim_C4_close_per_state_witness :
    (closeConn 7 sampleInitConn).state = ConnState.CLOSED ∧
    (closeConn 7 sampleInitConn).closed = some 7 ∧
    (closeConn 7 sampleInitConn).pending = [EventKind.ABORT] ∧
    (closeConn 7 sampleInitConn).xhr.sendCount = 0 ∧
    closeConn 7 sampleOpenConn =
      { sampleOpenConn with
        xhr := { sampleOpenConn.xhr with abortCount := 1 }
        trace := [Act.xhrAbort] } ∧
    closeConn 7 sampleClosedConn = sampleClosedConn := by
  have hi := (claim_C4_close_per_state 7 sampleInitConn).1 rfl rfl
  have ho := (claim_C4_close_per_state 7 sampleOpenConn).2.1 rfl
  have hc := (claim_C4_close_per_state 7 sampleClosedConn).2.2 rfl
  refine ⟨hi.1, hi.2.1, ?_, ?_, ?_, hc⟩
  · rw [hi.2.2.2.1]; rfl
  · rw [hi.2.2.2.2.2.1]; rfl
  · rw [ho]; rfl

/-- The `load` handler factored: close, stamp, and schedule the event
selected by the status the environment stored on the handle. -/
theorem handleLoad_eq (now : Nat) (c : Conn) :
    handleLoad now c =
      ((c.setState ConnState.CLOSED).setClosed now).schedule
        (if c.xhr.status < 400 then EventKind.COMPLETE else EventKind.ERROR) := by
  have hx : ((c.setState ConnState.CLOSED).setClosed now).xhr = c.xhr := by
    rw [(setClosed_fields _ _).2.2.2.2.1, (setState_fields _ _).2.2.2.2.1]
  show (if ((c.setState ConnState.CLOSED).setClosed now).xhr.status < 400 then
      ((c.setState ConnState.CLOSED).setClosed now).schedule EventKind.COMPLETE
    else ((c.setState ConnState.CLOSED).setClosed now).schedule EventKind.ERROR) =
    ((c.setState ConnState.CLOSED).setClosed now).schedule
      (if c.xhr.status < 400 then EventKind.COMPLETE else EventKind.ERROR)
  rw [hx]
  split <;> rfl

/-- C1: the reactions `open()` wires for transport signals received
while the connection is `OPEN` (handlers attached, close timestamp still
unset).  A `progress` signal schedules exactly one `DATA` emission and
changes nothing else; a `load` closes the connection, stamps `closed`,
and schedules exactly one `COMPLETE` emission when the stored status is
below 400 and exactly one `ERROR` emission otherwise; `abort` closes,
stamps, and schedules one `ABORT`; `error` and `timeout` each close,
stamp, and schedule one `ERROR`.  Every branch returns a connection —
delivery is total, never a thrown exception. -/
theorem claim_C1_signal_reactions (now st : Nat) (r : JSValue) (c : Conn)
    (hS : c.state = ConnState.OPEN) (hA : c.attached = true)
    (hC : c.closed = none) :
    ((deliverSignal .progress now c).pending = c.pending ++ [EventKind.DATA] ∧
     (deliverSignal .progress now c).state = c.state ∧
     (deliverSignal .progress now c).opened = c.opened ∧
     (deliverSignal .progress now c).closed = c.closed ∧
     (deliverSignal .progress now c).emitted = c.emitted ∧
     (deliverSignal .progress now c).xhr = c.xhr) ∧
    ((deliverSignal (.load st r) now c).state = ConnState.CLOSED ∧
     (deliverSignal (.load st r) now c).closed = some now ∧
     (deliverSignal (.load st r) now c).opened = c.opened ∧
     (deliverSignal (.load st r) now c).emitted = c.emitted ∧
     (deliverSignal (.load st r) now c).pending =
       c.pending ++ [if st < 400 then EventKind.COMPLETE else EventKind.ERROR]) ∧
    ((deliverSignal .abort now c).state = ConnState.CLOSED ∧
     (deliverSignal .abort now c).closed = some now ∧
     (deliverSignal .abort now c).opened = c.opened ∧
     (deliverSignal .abort now c).emitted = c.emitted ∧
     (deliverSignal .abort now c).pending = c.pending ++ [EventKind.ABORT]) ∧
    ((deliverSignal .error now c).state = ConnState.CLOSED ∧
     (deliverSignal .error now c).closed = some now ∧
     (deliverSignal .error now c).opened = c.opened ∧
     (deliverSignal .error now c).emitted = c.emitted ∧
     (deliverSignal .error now c).pending = c.pending ++ [EventKind.ERROR]) ∧
    ((deliverSignal .timeout now c).state = ConnState.CLOSED ∧
     (deliverSignal .timeout now c).closed = some now ∧
     (deliverSignal .timeout now c).opened = c.opened ∧
     (deliverSignal .timeout now c).emitted = c.emitted ∧
     (deliverSignal .timeout now c).pending = c.pending ++ [EventKind.ERROR]) := by
  have hprog : deliverSignal .progress now c = c.schedule EventKind.DATA := by
    simp [deliverSignal, hA, handleProgress]
  have habort : deliverSignal .abort now c =
      ((c.setState ConnState.CLOSED).setClosed now).schedule EventKind.ABORT := by
    simp [deliverSignal, hA, handleAbort]
  have herror : deliverSignal .error now c =
      ((c.setState ConnState.CLOSED).setClosed now).schedule EventKind.ERROR := by
    simp [deliverSignal, hA, handleError]
  have htime : deliverSignal .timeout now c =
      ((c.setState ConnState.CLOSED).setClosed now).schedule EventKind.ERROR := by
    simp [deliverSignal, hA, handleTimeout]
  have hload : deliverSignal (.load st r) now c =
      handleLoad now { c with xhr := { c.xhr with status := st, response := r } } := by
    simp [deliverSignal, hA]
  refine ⟨?_, ?_, ?_, ?_, ?_⟩
  · rw [hprog]
    simp [Conn.schedule]
  · rw [hload, handleLoad_eq]
    have h := handlerClose_fields now
      { c with xhr := { c.xhr with status := st, response := r } }
      (if ({ c with xhr := { c.xhr with status := st, response := r } } : Conn).xhr.status < 400
        then EventKind.COMPLETE else EventKind.ERROR)
    refine ⟨h.1, ?_, ?_, ?_, ?_⟩
    · rw [h.2.2.1]; simp [hC]
    · rw [h.2.1]
    · rw [h.2.2.2.2.1]
    · rw [h.2.2.2.1]
  · have h := handlerClose_fields now c EventKind.ABORT
    rw [habort]
    refine ⟨h.1, ?_, h.2.1, h.2.2.2.2.1, h.2.2.2.1⟩
    rw [h.2.2.1]; simp [hC]
  · have h := handlerClose_fields now c EventKind.ERROR
    rw [herror]
    refine ⟨h.1, ?_, h.2.1, h.2.2.2.2.1, h.2.2.2.1⟩
    rw [h.2.2.1]; simp [hC]
  · have h := handlerClose_fields now c EventKind.ERROR
    rw [htime]
    refine ⟨h.1, ?_, h.2.1, h.2.2.2.2.1, h.2.2.2.1⟩
    rw [h.2.2.1]; simp [hC]

/-- Witness for C1 at concrete inputs: each of the five signals
delivered to an open connection. -/
theorem claim_C1_signal_reactions_witness :
    (deliverSignal .progress 8 sampleOpenConn).pending = [EventKind.DATA] ∧
    (deliverSignal (.load 200 (.str "ok")) 8 sampleOpenConn).pending =
      [EventKind.COMPLETE] ∧
    (deliverSignal (.load 404 (.str "no")) 8 sampleOpenConn).pending =
      [EventKind.ERROR] ∧
    (deliverSignal (.load 200 (.str "ok")) 8 sampleOpenConn).closed = some 8 ∧
    (deliverSignal .abort 8 sampleOpenConn).pending = [EventKind.ABORT] ∧
    (deliverSignal .error 8 sampleOpenConn).state = ConnState.CLOSED ∧
    (deliverSignal .timeout 8 sampleOpenConn).pending = [EventKind.ERROR] := by
  have h200 := claim_C1_signal_reactions 8 200 (.str "ok") sampleOpenConn rfl rfl rfl
  have h404 := claim_C1_signal_reactions 8 404 (.str "no") sampleOpenConn rfl rfl rfl
  refine ⟨?_, ?_, ?_, h200.2.1.2.1, ?_, h200.2.2.2.1.1, ?_⟩
  · have := h200.1.1; simpa [sampleOpenConn] using this
  · have := h200.2.1.2.2.2.2; simpa [sampleOpenConn] using this
  · have := h404.2.1.2.2.2.2; simpa [sampleOpenConn] using this
  · have := h200.2.2.1.2.2.2.2; simpa [sampleOpenConn] using this
  · have := h200.2.2.2.2.2.2.2.2; simpa [sampleOpenConn] using this

/-- C6: lifecycle mutations are synchronous, emissions deferred.  No
lifecycle operation — `open()`, `close()`, or a signal handler — appends
to the emitted log itself: each only schedules.  Firing a timer is the
only step that emits, and it never touches `state`, `opened` or
`closed`, so every listener observes the already-transitioned state.
Inside a closing handler the mutation strictly precedes the scheduling:
the trace it appends is `state := CLOSED`, `closed := now`, then
`setTimeout(emit)`, with no synchronous `emit` action. -/
theorem claim_C6_mutate_then_defer :
    (∀ (hdrs : JSValue) (now : Nat) (c : Conn),
      (openConn hdrs now c).conn.emitted = c.emitted) ∧
    (∀ (now : Nat) (c : Conn), (closeConn now c).emitted = c.emitted) ∧
    (∀ (s : Signal) (now : Nat) (c : Conn),
      (deliverSignal s now c).emitted = c.emitted) ∧
    (∀ c : Conn,
      (fireTimer c).state = c.state ∧ (fireTimer c).opened = c.opened ∧
      (fireTimer c).closed = c.closed ∧
      (fireTimer c).emitted = c.emitted ++ c.pending.take 1 ∧
      (fireTimer c).pending = c.pending.drop 1) ∧
    (∀ (now : Nat) (c : Conn),
      c.state = ConnState.OPEN → c.attached = true → c.closed = none →
      (deliverSignal .error now c).trace =
        c.trace ++
          [Act.stState ConnState.CLOSED, Act.stClosed now,
            Act.sched EventKind.ERROR] ∧
      (deliverSignal .error now c).state = ConnState.CLOSED ∧
      (deliverSignal .error now c).closed = some now) := by
  refine ⟨?_, ?_, ?_, ?_, ?_⟩
  · intro hdrs now c
    exact (openConn_fields hdrs now c).2.1
  · intro now c
    exact (closeConn_fields now c).2.2.2.1
  · intro s now c
    exact (deliverSignal_inv s now c).2.2.1
  · intro c
    have h := fireTimer_fields c
    exact ⟨h.1, h.2.1, h.2.2.1, h.2.2.2.2.1, h.2.2.2.2.2⟩
  · intro now c hS hA hC
    have he : deliverSignal .error now c =
        ((c.setState ConnState.CLOSED).setClosed now).schedule EventKind.ERROR := by
      simp [deliverSignal, hA, handleError]
    rw [he]
    have h := handlerClose_fields now c EventKind.ERROR
    refine ⟨?_, h.1, ?_⟩
    · simp [Conn.setState, Conn.setClosed, Conn.schedule, stateRank, hS, hC]
    · rw [h.2.2.1]; simp [hC]

/-- Witness for C6 at concrete inputs. -/
theorem claim_C6_mutate_then_defer_witness :
    (deliverSignal .error 8 sampleOpenConn).trace =
      [Act.stState ConnState.CLOSED, Act.stClosed 8, Act.sched EventKind.ERROR] ∧
    (deliverSignal .error 8 sampleOpenConn).emitted = [] ∧
    (fireTimer (deliverSignal .error 8 sampleOpenConn)).closed = some 8 := by
  have h := claim_C6_mutate_then_defer
  have hx := h.2.2.2.2 8 sampleOpenConn rfl rfl rfl
  refine ⟨?_, ?_, ?_⟩
  · have := hx.1; simpa [sampleOpenConn] using this
  · have := h.2.2.1 .error 8 sampleOpenConn
    simpa [sampleOpenConn] using this
  · have := (h.2.2.2.1 (deliverSignal .error 8 sampleOpenConn)).2.2.1
    rw [this, hx.2.2]

/-- `open()` completes a send exactly when it starts from `INIT` with
enumerable configured headers and no extra-headers argument of `typeof`
`"object"`: the handle's send counter increments once, nothing is
thrown, and `this` is returned. -/
theorem openConn_send (hdrs : JSValue) (now : Nat) (c : Conn)
    (bl : List (String × JSValue))
    (hI : c.state = ConnState.INIT) (hb : c.headers = .obj bl)
    (ht : ¬ typeofJS hdrs = "object") :
    (openConn hdrs now c).conn.xhr.sendCount = c.xhr.sendCount + 1 ∧
    (openConn hdrs now c).thrown = none ∧
    (openConn hdrs now c).retSelf = true := by
  simp [openConn, hI, hb, ht, openFinish, applyHeaderList_eq, setState_fields,
    setOpened_fields, schedule_fields, objKeysEntries]

/-- C5: `open()` is idempotent.  A second call never changes the
connection again (whatever the arguments and whatever state the first
call left); a call outside `INIT` does nothing at all and returns
`undefined`; and a double open from `INIT` schedules exactly one `OPEN`
emission and performs exactly one underlying send. -/
theorem claim_C5_open_idempotent :
    (∀ (hdrs1 hdrs2 : JSValue) (now1 now2 : Nat) (c : Conn),
      (openConn hdrs2 now2 (openConn hdrs1 now1 c).conn).conn =
        (openConn hdrs1 now1 c).conn) ∧
    (∀ (hdrs : JSValue) (now : Nat) (c : Conn),
      ¬ c.state = ConnState.INIT → openConn hdrs now c = ⟨c, none, false⟩) ∧
    (∀ (hdrs2 : JSValue) (now1 now2 : Nat) (c : Conn)
        (bl : List (String × JSValue)),
      c.state = ConnState.INIT → c.headers = .obj bl →
      (openConn hdrs2 now2 (openConn .undefined now1 c).conn).conn.pending =
        c.pending ++ [EventKind.OPEN] ∧
      (openConn hdrs2 now2 (openConn .undefined now1 c).conn).conn.xhr.sendCount =
        c.xhr.sendCount + 1 ∧
      (openConn hdrs2 now2 (openConn .undefined now1 c).conn).conn.emitted =
        c.emitted) := by
  have hidem : ∀ (hdrs1 hdrs2 : JSValue) (now1 now2 : Nat) (c : Conn),
      (openConn hdrs2 now2 (openConn hdrs1 now1 c).conn).conn =
        (openConn hdrs1 now1 c).conn := by
    intro hdrs1 hdrs2 now1 now2 c
    by_cases hI : c.state = ConnState.INIT
    · have h1 : (openConn hdrs1 now1 c).conn.state = ConnState.OPEN := by
        rw [(openConn_fields hdrs1 now1 c).1]; simp [hI]
      have : ¬ (openConn hdrs1 now1 c).conn.state = ConnState.INIT := by
        rw [h1]; simp
      rw [openConn_noop hdrs2 now2 _ this]
    · have h1 : openConn hdrs1 now1 c = ⟨c, none, false⟩ :=
        openConn_noop hdrs1 now1 c hI
      rw [h1]
      show (openConn hdrs2 now2 c).conn = c
      rw [openConn_noop hdrs2 now2 c hI]
  refine ⟨hidem, fun hdrs now c h => openConn_noop hdrs now c h, ?_⟩
  intro hdrs2 now1 now2 c bl hI hb
  rw [hidem .undefined hdrs2 now1 now2 c]
  refine ⟨?_, ?_, (openConn_fields .undefined now1 c).2.1⟩
  · rw [(openConn_fields .undefined now1 c).2.2.2.1]; simp [hI]
  · exact (openConn_send .undefined now1 c bl hI hb (by simp [typeofJS])).1

/-- Witness for C5 at concrete inputs: double open from a fresh
connection, and an open on an already-open connection. -/
theorem claim_C5_open_idempotent_witness :
    (openConn .null 9 (openConn .undefined 5 sampleInitConn).conn).conn =
      (openConn .undefined 5 sampleInitConn).conn ∧
    openConn .undefined 9 sampleOpenConn = ⟨sampleOpenConn, none, false⟩ ∧
    (openConn .null 9 (openConn .undefined 5 sampleInitConn).conn).conn.pending =
      [EventKind.OPEN] ∧
    (openConn .null 9 (openConn .undefined 5 sampleInitConn).conn).conn.xhr.sendCount =
      1 := by
  have h := claim_C5_open_idempotent
  have h3 := h.2.2 .null 5 9 sampleInitConn
    [("Accept", JSValue.str "application/json")] rfl rfl
  refine ⟨h.1 .undefined .null 5 9 sampleInitConn, ?_, ?_, ?_⟩
  · exact h.2.1 .undefined 9 sampleOpenConn (by decide)
  · have := h3.1; simpa [sampleInitConn] using this
  · have := h3.2.1; simpa [sampleInitConn] using this

/-- C7: `open(extraHeaders)` from `INIT` (open timestamp still unset,
enumerable configured headers, extra headers an object).  The call
returns `this` with nothing thrown; the connection is `OPEN` with
`opened` stamped; the request headers applied on the handle are the base
configured entries first, then the entries passed to `open()` on top,
each list skipping entries whose value is `undefined` or `null`; and the
action trace shows the order: handlers attached, `xhr.open`, timeout,
state/timestamp mutation and `OPEN` scheduling, the two header passes,
the response type negotiation — all strictly before the single send of
the configured body. -/
theorem claim_C7_open_behavior (now : Nat) (c : Conn)
    (bl el : List (String × JSValue))
    (hI : c.state = ConnState.INIT) (hO : c.opened = none)
    (hb : c.headers = .obj bl) :
    openConn (.obj el) now c =
      ⟨{ c with
          attached := true
          state := ConnState.OPEN
          opened := some now
          pending := c.pending ++ [EventKind.OPEN]
          xhr := { c.xhr with
            openedWith := some (c.method, c.url)
            timeoutMs := c.timeout
            reqHeaders := c.xhr.reqHeaders ++
              bl.filter (fun kv => jsDefinedNotNull kv.2) ++
              el.filter (fun kv => jsDefinedNotNull kv.2)
            respType := c.responseType
            sendCount := c.xhr.sendCount + 1 }
          trace := c.trace ++
            ([Act.attachHandlers, Act.xhrOpenCall c.method c.url,
              Act.xhrSetTimeout c.timeout, Act.stState ConnState.OPEN,
              Act.stOpened now, Act.sched EventKind.OPEN] ++
              (bl.filter (fun kv => jsDefinedNotNull kv.2)).map
                (fun kv => Act.setHeader kv.1 kv.2) ++
              (el.filter (fun kv => jsDefinedNotNull kv.2)).map
                (fun kv => Act.setHeader kv.1 kv.2) ++
              [Act.setRespType c.responseType, Act.send c.body]) },
        none, true⟩ := by
  simp [openConn, hI, hb, hO, Conn.setState, Conn.setOpened, Conn.schedule,
    stateRank, typeofJS, objKeysEntries, applyHeaderList_eq, openFinish]

/-- Witness for C7 at concrete inputs: base headers with one `null`
entry skipped, extra headers layered on top. -/
theorem claim_C7_open_behavior_witness :
    (openConn (.obj [("X-A", .str "1"), ("X-B", .null)]) 5
        { sampleInitConn with
          headers := .obj [("Accept", .str "application/json"), ("Skip", .undefined)] }).conn.xhr.reqHeaders =
      [("Accept", .str "application/json"), ("X-A", .str "1")] ∧
    (openConn (.obj [("X-A", .str "1"), ("X-B", .null)]) 5
        { sampleInitConn with
          headers := .obj [("Accept", .str "application/json"), ("Skip", .undefined)] }).retSelf =
      true := by
  have h := claim_C7_open_behavior 5
    { sampleInitConn with
      headers := .obj [("Accept", .str "application/json"), ("Skip", .undefined)] }
    [("Accept", .str "application/json"), ("Skip", .undefined)]
    [("X-A", .str "1"), ("X-B", .null)] rfl rfl rfl
  rw [h]
  constructor
  · rfl
  · rfl

/-- The listener loop throws exactly when some entry is ill-shaped. -/
theorem registerListeners_err (ls : List JSValue) (c : Conn) :
    isErr (registerListeners ls c) = ! ls.all goodListener := by
  induction ls generalizing c with
  | nil => simp [registerListeners, isErr]
  | cons lo rest ih =>
    by_cases h1 : truthy lo ∧ typeofJS lo = "object"
    · by_cases h2 : connectionEventIncludes (getField lo "type") = true
      · by_cases h3 : typeofJS (getField lo "callback") = "function"
        · simp [registerListeners, h1, h2, h3, ih, goodListener]
        · simp [registerListeners, h1, h2, h3, isErr, goodListener]
      · simp [registerListeners, h1, h2, isErr, goodListener]
    · simp [registerListeners, h1, isErr, goodListener]
      left; left; left
      simpa using not_and_or.mp h1

/-- A successful listener loop only appends registrations: every other
field survives. -/
theorem registerListeners_ok_state (ls : List JSValue) (c c' : Conn)
    (h : registerListeners ls c = .ok c') :
    c'.state = c.state ∧ c'.opened = c.opened ∧ c'.closed = c.closed ∧
    c'.pending = c.pending ∧ c'.emitted = c.emitted := by
  induction ls generalizing c with
  | nil =>
    simp [registerListeners] at h
    rw [← h]
    exact ⟨rfl, rfl, rfl, rfl, rfl⟩
  | cons lo rest ih =>
    by_cases h1 : truthy lo ∧ typeofJS lo = "object"
    · by_cases h2 : connectionEventIncludes (getField lo "type") = true
      · by_cases h3 : typeofJS (getField lo "callback") = "function"
        · simp [registerListeners, h1, h2, h3] at h
          have := ih _ h
          simpa [Conn.addListener] using this
        · simp [registerListeners, h1, h2, h3] at h
      · simp [registerListeners, h1, h2] at h
    · simp [registerListeners, h1] at h

/-- `open()` from `INIT` throws nothing when the configured headers
enumerate successfully and no object-typed argument is passed. -/
theorem openConn_no_throw (now : Nat) (c : Conn)
    (base : List (String × JSValue))
    (hI : c.state = ConnState.INIT)
    (hk : objKeysEntries c.headers = .ok base) :
    (openConn .undefined now c).thrown = none := by
  simp [openConn, hI, hk, typeofJS, openFinish, setState_fields, setOpened_fields,
    schedule_fields]

/-- `open()` from `INIT` with `null` configured headers throws the
enumeration `TypeError` (after the `OPEN` transition already
happened). -/
theorem openConn_null_throw (now : Nat) (c : Conn)
    (hI : c.state = ConnState.INIT) (hb : c.headers = .null) :
    (openConn .undefined now c).thrown =
      some "TypeError: Cannot convert undefined or null to object" := by
  simp [openConn, hI, hb, objKeysEntries, setState_fields, setOpened_fields,
    schedule_fields]

theorem isNullJS_withDefault (v d : JSValue) (hd : isNullJS d = false) :
    (isNullJS (withDefault v d) = true) ↔ v = JSValue.null := by
  cases v <;> simp [withDefault, isNullJS] <;> simp [isNullJS] at hd <;> simp [hd]

/-- The constructor tail throws exactly when auto-open is requested and
the (validated, `typeof`-`"object"`) headers are `null`: enumerating
them in `open()` raises the `TypeError`. -/
theorem constructFinish_err (options : JSValue) (now : Nat) (c : Conn)
    (hI : c.state = ConnState.INIT) (hto : typeofJS c.headers = "object") :
    isErr (constructFinish options now c) =
      (truthy (getField options "open") && isNullJS c.headers) := by
  by_cases hOp : truthy (getField options "open") = true
  · cases hh : c.headers with
    | null =>
      have ht := openConn_null_throw now c hI hh
      simp [constructFinish, hOp, ht, isErr, isNullJS]
    | obj l =>
      have ht := openConn_no_throw now c l hI (by rw [hh]; rfl)
      simp [constructFinish, hOp, ht, isErr, isNullJS]
    | arr a =>
      have ht := openConn_no_throw now c
        (a.enum.map (fun iv => (toString iv.1, iv.2))) hI
        (by rw [hh]; rfl)
      simp [constructFinish, hOp, ht, isErr, isNullJS]
    | undefined => rw [hh] at hto; simp [typeofJS] at hto
    | bool b => rw [hh] at hto; simp [typeofJS] at hto
    | num n => rw [hh] at hto; simp [typeofJS] at hto
    | str st => rw [hh] at hto; simp [typeofJS] at hto
    | fn id => rw [hh] at hto; simp [typeofJS] at hto
  · simp [constructFinish, hOp, isErr]

/-- The checks body throws exactly when the claim's enumerated
conditions hold — or when auto-open is requested with `null` headers,
whose enumeration failure escapes the constructor. -/
theorem constructChecks_err_iff (url : String) (options : JSValue) (now : Nat) :
    (isErr (constructChecks url options now) = true) ↔
      (claimInvalidConfig options = true ∨
        (truthy (getField options "open") = true ∧
          getField options "headers" = JSValue.null)) := by
  by_cases hM : jsIncludesStr ALLOWED_METHODS
      (withDefault (getField options "method") (JSValue.str "GET")) = true
  case neg => simp [constructChecks, claimInvalidConfig, hM, isErr]
  case pos =>
  by_cases hR : jsIncludesStr ALLOWED_RESPONSE_TYPES
      (withDefault (getField options "responseType") (JSValue.str "json")) = true
  case neg => simp [constructChecks, claimInvalidConfig, hM, hR, isErr]
  case pos =>
  by_cases hH : typeofJS (withDefault (getField options "headers")
      (JSValue.obj [("Accept", JSValue.str "application/json")])) = "object"
  case neg => simp [constructChecks, claimInvalidConfig, hM, hR, hH, isErr]
  case pos =>
  by_cases hT : (isSafeIntegerJS (withDefault (getField options "timeout") (JSValue.num 0)) &&
      !(jsNegative (withDefault (getField options "timeout") (JSValue.num 0)))) = true
  case neg =>
    have hT2 : ¬ (isSafeIntegerJS (withDefault (getField options "timeout") (JSValue.num 0)) = true ∧
        ¬ jsNegative (withDefault (getField options "timeout") (JSValue.num 0)) = true) := by
      simpa [Bool.and_eq_true, Bool.not_eq_true'] using hT
    have hT3 : isSafeIntegerJS (withDefault (getField options "timeout") (JSValue.num 0)) = true →
        jsNegative (withDefault (getField options "timeout") (JSValue.num 0)) = true := by
      intro ha
      by_contra hb
      exact hT2 ⟨ha, hb⟩
    simp [constructChecks, claimInvalidConfig, hM, hR, hH, hT, hT3, isErr]
    rw [if_pos hT3]
  case pos =>
  have hT2 : isSafeIntegerJS (withDefault (getField options "timeout") (JSValue.num 0)) = true ∧
      ¬ jsNegative (withDefault (getField options "timeout") (JSValue.num 0)) = true := by
    simpa [Bool.and_eq_true, Bool.not_eq_true'] using hT
  cases hL : withDefault (getField options "listeners") (JSValue.arr []) with
  | arr ls =>
    by_cases hA : ls.all goodListener = true
    · cases hre : registerListeners ls (baseConn url) with
      | error e =>
        have herr := registerListeners_err ls (baseConn url)
        rw [hre] at herr
        simp [isErr, hA] at herr
      | ok c0 =>
        have hst : c0.state = ConnState.INIT :=
          (registerListeners_ok_state ls (baseConn url) c0 hre).1
        rw [show (isErr (constructChecks url options now)) =
            (truthy (getField options "open") &&
              isNullJS (withDefault (getField options "headers")
                (JSValue.obj [("Accept", JSValue.str "application/json")]))) from ?_]
        · constructor
          · intro hx
            right
            have := Bool.and_eq_true _ _ ▸ hx
            rw [Bool.and_eq_true] at hx
            exact ⟨hx.1, (isNullJS_withDefault (getField options "headers")
              (JSValue.obj [("Accept", JSValue.str "application/json")]) rfl).mp hx.2⟩
          · intro hx
            rcases hx with hbad | ⟨ho, hn⟩
            · exfalso
              revert hbad
              simp [claimInvalidConfig, hM, hR, hH, hT, hL, hA]
            · rw [Bool.and_eq_true]
              exact ⟨ho, (isNullJS_withDefault (getField options "headers")
                (JSValue.obj [("Accept", JSValue.str "application/json")]) rfl).mpr hn⟩
        · rw [show constructChecks url options now =
              constructFinish options now
                { c0 with
                  method := asStr (withDefault (getField options "method") (JSValue.str "GET"))
                  body := withDefault (getField options "body") JSValue.null
                  headers := withDefault (getField options "headers")
                    (JSValue.obj [("Accept", JSValue.str "application/json")])
                  responseType := asStr (withDefault (getField options "responseType") (JSValue.str "json"))
                  timeout := withDefault (getField options "timeout") (JSValue.num 0)
                  xhr := {} } from ?_]
          · rw [constructFinish_err]
            · exact hst
            · exact hH
          · simp [constructChecks, hM, hR, hH, hT2, hL, hre]
    · cases hre : registerListeners ls (baseConn url) with
      | ok c0 =>
        have herr := registerListeners_err ls (baseConn url)
        rw [hre] at herr
        simp [isErr, hA] at herr
      | error e =>
        simp [constructChecks, claimInvalidConfig, hM, hR, hH, hT, hT2, hL, hre,
          hA, isErr]
  | undefined =>
    simp [constructChecks, claimInvalidConfig, hM, hR, hH, hT, hT2, hL, isErr]
  | null =>
    simp [constructChecks, claimInvalidConfig, hM, hR, hH, hT, hT2, hL, isErr]
  | bool b =>
    simp [constructChecks, claimInvalidConfig, hM, hR, hH, hT, hT2, hL, isErr]
  | num n =>
    simp [constructChecks, claimInvalidConfig, hM, hR, hH, hT, hT2, hL, isErr]
  | str st =>
    simp [constructChecks, claimInvalidConfig, hM, hR, hH, hT, hT2, hL, isErr]
  | obj fs =>
    simp [constructChecks, claimInvalidConfig, hM, hR, hH, hT, hT2, hL, isErr]
  | fn id =>
    simp [constructChecks, claimInvalidConfig, hM, hR, hH, hT, hT2, hL, isErr]

/-- Counterexample to C3 as stated: with `headers: null` (which passes
the `typeof` check, since `typeof null` is `"object"`) and a truthy
`open` option, none of the claim's enumerated conditions holds, yet
construction throws — the automatic `open()` call fails enumerating the
`null` headers and its `TypeError` escapes the constructor. -/
theorem claim_C3_counterexample :
    isErr (construct "u"
      (JSValue.obj [("headers", JSValue.null), ("open", JSValue.bool true)]) 0) = true ∧
    claimInvalidConfig
      (JSValue.obj [("headers", JSValue.null), ("open", JSValue.bool true)]) = false :=
  ⟨rfl, rfl⟩

/-- C3 (amended): for every options object (a genuine object — not
`null`), construction throws if and only if one of the claim's
enumerated conditions holds — method outside GET/POST/PUT/DELETE,
response type outside the allowed five, headers whose `typeof` is not
`"object"`, timeout not a non-negative safe integer, listeners not an
array of well-shaped registrations — or the `open` option is truthy
while `headers` is `null`, in which case the automatic `open()` throws
after validation passed (and after the handle was created).  Validation
failures themselves occur before the handle exists: the erroring
constructor returns no instance, hence no handle; in particular method
`"PATCH"` always fails. -/
theorem claim_C3_constructor_validation (url : String) (options : JSValue)
    (now : Nat) (hobj : typeofJS options = "object")
    (hnn : ¬ options = JSValue.null) :
    ((isErr (construct url options now) = true) ↔
      (claimInvalidConfig options = true ∨
        (truthy (getField options "open") = true ∧
          getField options "headers" = JSValue.null))) ∧
    (getField options "method" = JSValue.str "PATCH" →
      isErr (construct url options now) = true) := by
  have hred : construct url options now = constructChecks url options now := by
    cases options <;> simp_all [construct, typeofJS]
  rw [hred]
  refine ⟨constructChecks_err_iff url options now, ?_⟩
  intro hP
  rw [constructChecks_err_iff url options now]
  left
  simp [claimInvalidConfig, hP, withDefault, jsIncludesStr, ALLOWED_METHODS]

/-- Witness for the amended C3 at concrete inputs: `"PATCH"` fails, a
default configuration passes, and the exact `headers: null` + auto-open
leak described by the amendment. -/
theorem claim_C3_constructor_validation_witness :
    isErr (construct "u" (JSValue.obj [("method", JSValue.str "PATCH")]) 0) = true ∧
    isErr (construct "u" (JSValue.obj []) 0) = false ∧
    isErr (construct "u"
      (JSValue.obj [("headers", JSValue.null), ("open", JSValue.bool true)]) 0) = true := by
  have hpatch := claim_C3_constructor_validation "u"
    (JSValue.obj [("method", JSValue.str "PATCH")]) 0 rfl
    (fun h => JSValue.noConfusion h)
  have hdefault := claim_C3_constructor_validation "u" (JSValue.obj []) 0 rfl
    (fun h => JSValue.noConfusion h)
  have hleak := claim_C3_constructor_validation "u"
    (JSValue.obj [("headers", JSValue.null), ("open", JSValue.bool true)]) 0 rfl
    (fun h => JSValue.noConfusion h)
  refine ⟨hpatch.2 rfl, ?_, ?_⟩
  · rw [show (isErr (construct "u" (JSValue.obj []) 0) = false) =
      ¬ (isErr (construct "u" (JSValue.obj []) 0) = true) from by simp]
    rw [hdefault.1]
    simp [claimInvalidConfig, getField, truthy, withDefault]
    decide
  · rw [hleak.1]
    right
    exact ⟨rfl, rfl⟩

/-- C10: constructing with `headers: null` raises no configuration
error — the validation only tests `typeof headers`, and
`typeof null === "object"` — so the instance is created with `null`
headers even though they are no key-to-value mapping; a subsequent
`open()` then throws the `TypeError` raised by enumerating them. -/
theorem claim_C10_null_headers_pass (url : String) (now t : Nat) :
    typeofJS JSValue.null = "object" ∧
    isErr (construct url (JSValue.obj [("headers", JSValue.null)]) now) = false ∧
    (match construct url (JSValue.obj [("headers", JSValue.null)]) now with
     | .ok c =>
       c.headers = JSValue.null ∧
       (openConn .undefined t c).thrown =
         some "TypeError: Cannot convert undefined or null to object"
     | .error _ => False) := by
  refine ⟨rfl, rfl, ?_⟩
  exact ⟨rfl, rfl⟩

/-- Counterexample to C8 as stated: a `"json"`-configured connection in
the raw-text fallback (negotiated response type the empty string) whose
raw response is the empty string.  The claim says the raw text is parsed
as JSON before being returned; the getter instead returns the raw empty
string unparsed, because the source additionally requires
`this.xhr.response` to be truthy — parsing here would have thrown, as
`JSON.parse` rejects the empty string. -/
theorem claim_C8_counterexample :
    sampleFallbackEmpty.responseType = "json" ∧
    sampleFallbackEmpty.xhr.respType = "" ∧
    responseGetter sampleFallbackEmpty = .ok (.str "") ∧
    jsonParse (jsToString sampleFallbackEmpty.xhr.response) =
      .error "Unexpected end of JSON input" ∧
    ¬ responseGetter sampleFallbackEmpty =
        jsonParse (jsToString sampleFallbackEmpty.xhr.response) := by
  refine ⟨rfl, rfl, rfl, rfl, ?_⟩
  intro h
  rw [show responseGetter sampleFallbackEmpty = Except.ok (JSValue.str "") from rfl,
    show jsonParse (jsToString sampleFallbackEmpty.xhr.response) =
      Except.error "Unexpected end of JSON input" from rfl] at h
  exact Except.noConfusion h

/-- C8 (amended): for a connection configured with response type
`"json"`, the accessor parses the raw text as JSON exactly when the
negotiated response type fell back to raw text AND the raw response is
truthy (non-empty); in every other case — including the empty-text
fallback — the transport's decoded response is returned as-is. -/
theorem claim_C8_json_response (c : Conn) (h : c.responseType = "json") :
    (truthy c.xhr.response = true → c.xhr.respType = "" →
      responseGetter c = jsonParse (jsToString c.xhr.response)) ∧
    (¬ (truthy c.xhr.response = true ∧ c.xhr.respType = "") →
      responseGetter c = .ok c.xhr.response) := by
  constructor
  · intro h1 h2
    simp [responseGetter, h, h1, h2]
  · intro hn
    unfold responseGetter
    rw [if_neg (fun hc => hn ⟨hc.2.1, hc.2.2⟩)]

/-- Witness for the amended C8 at concrete inputs: the fallback with
JSON text parses; the fallback with empty text returns it as-is. -/
theorem claim_C8_json_response_witness :
    responseGetter sampleFallbackJson = .ok (.obj [("a", .num 1)]) ∧
    responseGetter sampleFallbackEmpty = .ok (.str "") := by
  have h1 := (claim_C8_json_response sampleFallbackJson rfl).1 rfl rfl
  have h2 := (claim_C8_json_response sampleFallbackEmpty rfl).2 (by decide)
  constructor
  · rw [h1]; rfl
  · rw [h2]; rfl
